import Mathlib

/-!
Verification development for the RM-scraper repository (store-metrics scraper).

The Python sources are shallowly embedded:
* JSON numbers (Python ints/floats) are modelled as rationals `ℚ`; the
  arithmetic in the source is plain `+ * /` on numbers, which the rational
  model reflects exactly (floating-point rounding error is idealized away).
* Python string formatting `f"{x:.1f}"` / `f"{x:.0f}"` is modelled as exact
  round-half-even decimal rendering of the rational value.
* Fallible scraping functions return `Option`: `none` models the `return None`
  taken on any exception; the payload-processing path itself is total.
-/

namespace RMScraper

/-- Truncation toward zero, the semantics of Python `int()` on a number. -/
def pyInt (q : ℚ) : ℤ := if 0 ≤ q then ⌊q⌋ else ⌈q⌉

/-- Round-half-even to the nearest integer, the rounding used by Python
`format` (idealized from binary floats to exact rationals). -/
def roundHalfEven (q : ℚ) : ℤ :=
  let f := ⌊q⌋
  let r := q - f
  if r < 1/2 then f
  else if 1/2 < r then f + 1
  else if 2 ∣ f then f else f + 1

/-- Render an integer number of tenths as a decimal string with one fractional
digit, e.g. `21 ↦ "2.1"`. -/
def fmtTenthsInt (n : ℤ) : String :=
  let a := n.natAbs
  (if n < 0 then "-" else "") ++ toString (a / 10) ++ "." ++ toString (a % 10)

/-- Python `f"{q:.1f}"`: one decimal place, round-half-even. -/
def fmt1 (q : ℚ) : String := fmtTenthsInt (roundHalfEven (10 * q))

/-- Python `f"{q:.0f}"`: zero decimal places, round-half-even. -/
def fmt0 (q : ℚ) : String := toString (roundHalfEven q)

/-- Python `re.sub(r"[^\d.]", "", s)`: keep only digits and dots. -/
def stripNonNumeric (s : String) : String :=
  String.mk (s.toList.filter (fun c => c.isDigit || c == '.'))

/-- Value of a list of decimal digit characters read as a natural number. -/
def digitsToNat (l : List Char) : ℕ :=
  l.foldl (fun acc c => acc * 10 + (c.toNat - '0'.toNat)) 0

/-- Parse an unsigned decimal literal: digits, optionally followed by a dot
and more digits, with at least one digit overall. `none` models the
`ValueError` raised by Python `float()` on anything else. -/
def parseUnsignedDec (s : List Char) : Option ℚ :=
  let intPart := s.takeWhile (fun c => c.isDigit)
  let rest := s.dropWhile (fun c => c.isDigit)
  match rest with
  | [] => if intPart.isEmpty then none else some (digitsToNat intPart)
  | '.' :: frac =>
      if frac.all (fun c => c.isDigit) && !(intPart.isEmpty && frac.isEmpty) then
        some ((digitsToNat intPart : ℚ) + (digitsToNat frac : ℚ) / 10 ^ frac.length)
      else none
  | _ => none

/-- Python `float(s)` on plain decimal strings (signed decimal literal,
surrounding whitespace allowed); `none` models `ValueError`. -/
def pyFloat (s : String) : Option ℚ :=
  match s.trim.toList with
  | '-' :: rest => (parseUnsignedDec rest).map Neg.neg
  | '+' :: rest => parseUnsignedDec rest
  | l => parseUnsignedDec l

/-- Whether `pat` occurs at the head of `s`. -/
def leadEq : List Char → List Char → Bool
  | [], _ => true
  | _ :: _, [] => false
  | a :: as, b :: bs => a == b && leadEq as bs

/-- Whether `pat` occurs somewhere in `s`, the semantics of Python
`pat in s` on strings. -/
def listHasSub (pat : List Char) : List Char → Bool
  | [] => leadEq pat []
  | c :: rest => leadEq pat (c :: rest) || listHasSub pat rest

/-- Whether `pat` occurs somewhere in `s` (Python `pat in s`). -/
def strHasSub (s pat : String) : Bool := listHasSub pat.toList s.toList

/-!
Data model of the metrics API payload consumed by
`scrape_store_metrics` (src/metrics.py, duplicated in scraper.py).
Each JSON entry is read through `entry.get(...)` / `m.get(..., 0)`, so absent
keys behave as `None` (for the string fields) or `0` (for the numbers); the
structures below store the values those lookups produce.
-/

/-- The `metrics` sub-dictionary of one API payload entry; each field is
`m.get('<Key>_V2', 0)` (or `m.get('LatePicksRate', 0)`), numbers modelled
as rationals. -/
structure ApiMetrics where
  OrdersShopped : ℚ
  PickedUnits : ℚ
  PickTimeInSec : ℚ
  ItemNotFoundRate : ℚ
  LatePicksRate : ℚ
  RequestedQuantity : ℚ
deriving DecidableEq

/-- One entry of the metrics API payload: `entry.get('type')`,
`entry.get('shopperName')` (both possibly absent) and the metrics dict. -/
structure ApiEntry where
  type : Option String
  shopperName : Option String
  metrics : ApiMetrics
deriving DecidableEq

/-- One element of `shopper_stats`: the per-worker dict built in the payload
loop, with `uph`, `inf`, `lates` stored as the formatted strings the source
produces and `orders` as `int(orders)`. -/
structure ShopperStat where
  name : String
  uph : String
  inf : String
  lates : String
  orders : ℤ
deriving DecidableEq

/-- The `overall` dict of a store result. In the degenerate "no active
shoppers" return only the `store` key is present, so every other field is an
`Option String` (`none` models an absent key). -/
structure OverallDict where
  store : String
  orders : Option String
  units : Option String
  uph : Option String
  inf : Option String
  lates : Option String
deriving DecidableEq

/-- The dictionary returned by `scrape_store_metrics` on its success path:
`{'overall': ..., 'shoppers': ...}`. -/
structure StoreData where
  overall : OverallDict
  shoppers : List ShopperStat
deriving DecidableEq

/-- The running `store_totals` accumulator dict. -/
structure StoreTotals where
  units : ℚ
  time : ℚ
  orders : ℚ
  req_units : ℚ
  inf_items : ℚ
  lates : ℚ
deriving DecidableEq

instance : Add StoreTotals :=
  ⟨fun a b =>
    { units := a.units + b.units
      time := a.time + b.time
      orders := a.orders + b.orders
      req_units := a.req_units + b.req_units
      inf_items := a.inf_items + b.inf_items
      lates := a.lates + b.lates }⟩

/-- The all-zero initial `store_totals`. -/
def zeroTotals : StoreTotals := ⟨0, 0, 0, 0, 0, 0⟩

/-- Truthiness of `entry.get('shopperName')` combined with the sentinel test:
`name and name != 'SHOPPER_NAME_NOT_FOUND'`. -/
def nameOk : Option String → Bool
  | none => false
  | some n => !(n == "") && !(n == "SHOPPER_NAME_NOT_FOUND")

/-- The net condition under which an entry contributes a worker record:
`entry.get('type') == 'MASTER' and name and name != 'SHOPPER_NAME_NOT_FOUND'`
and not the `if orders == 0: continue` skip. -/
def qualifies (e : ApiEntry) : Bool :=
  e.type == some "MASTER" && nameOk e.shopperName && !(e.metrics.OrdersShopped == 0)

/-- The per-worker dict appended to `shopper_stats` for a qualifying entry. -/
def mkStat (name : String) (m : ApiMetrics) : ShopperStat :=
  { name := name
    uph := fmt0 (if 0 < m.PickTimeInSec then m.PickedUnits / (m.PickTimeInSec / 3600) else 0)
    inf := fmt1 m.ItemNotFoundRate ++ " %"
    lates := fmt1 m.LatePicksRate ++ " %"
    orders := pyInt m.OrdersShopped }

/-- The amounts one qualifying entry adds to `store_totals`. -/
def entryTotals (m : ApiMetrics) : StoreTotals :=
  { units := m.PickedUnits
    time := m.PickTimeInSec
    orders := m.OrdersShopped
    req_units := m.RequestedQuantity
    inf_items := m.RequestedQuantity * (m.ItemNotFoundRate / 100)
    lates := m.OrdersShopped * (m.LatePicksRate / 100) }

/-- One iteration of the payload loop: test type/name, skip when
`orders == 0`, otherwise append the worker dict and accumulate the totals. -/
def stepEntry (acc : List ShopperStat × StoreTotals) (e : ApiEntry) :
    List ShopperStat × StoreTotals :=
  if e.type == some "MASTER" && nameOk e.shopperName then
    if e.metrics.OrdersShopped == 0 then acc
    else (acc.1 ++ [mkStat (e.shopperName.getD "") e.metrics], acc.2 + entryTotals e.metrics)
  else acc

/-- The whole `for entry in api_data` loop, producing `shopper_stats` and
`store_totals`. -/
def scrapeLoop (api_data : List ApiEntry) : List ShopperStat × StoreTotals :=
  api_data.foldl stepEntry ([], zeroTotals)

/-- Source line `overall_uph = (units/(time/3600)) if time>0 else 0`. -/
def overall_uph (t : StoreTotals) : ℚ :=
  if 0 < t.time then t.units / (t.time / 3600) else 0

/-- Source line `overall_inf = (inf_items/req_units)*100 if req_units>0 else 0`. -/
def overall_inf (t : StoreTotals) : ℚ :=
  if 0 < t.req_units then t.inf_items / t.req_units * 100 else 0

/-- Source line `overall_lates = (lates/orders)*100 if orders>0 else 0`. -/
def overall_lates (t : StoreTotals) : ℚ :=
  if 0 < t.orders then t.lates / t.orders * 100 else 0

/-- The sort key `lambda x: float(x['inf'].replace('%','').strip())` used on
`shopper_stats`. For the strings this pipeline produces (built by `fmt1`)
the parse always succeeds; the `getD 0` default is never taken for them. -/
def shopperSortKey (s : ShopperStat) : ℚ :=
  (pyFloat ((s.inf.replace "%" "").trim)).getD 0

/-- Boolean order used to model Python's stable `sorted` on the key. -/
def shopperLE (a b : ShopperStat) : Bool :=
  decide (shopperSortKey a ≤ shopperSortKey b)

/-- The payload-processing part of `scrape_store_metrics`: run the loop; on
no qualifying entries return the degenerate `{'overall': {'store': name},
'shoppers': []}`; otherwise build the formatted `overall` dict and the
stably sorted shopper list. -/
def scrape_store_metrics (store_name : String) (api_data : List ApiEntry) : StoreData :=
  let r := scrapeLoop api_data
  if r.1.isEmpty then
    { overall := ⟨store_name, none, none, none, none, none⟩, shoppers := [] }
  else
    { overall :=
        ⟨store_name,
         some (toString (pyInt r.2.orders)),
         some (toString (pyInt r.2.units)),
         some (fmt0 (overall_uph r.2)),
         some (fmt1 (overall_inf r.2) ++ " %"),
         some (fmt1 (overall_lates r.2) ++ " %")⟩
      shoppers := List.mergeSort r.1 shopperLE }

/-!
Specification-side descriptions of the loop: the set of qualifying entries
and the plain sums over them, to be compared with the accumulator fold.
-/

/-- The worker dict a qualifying entry turns into. -/
def statOf (e : ApiEntry) : ShopperStat := mkStat (e.shopperName.getD "") e.metrics

/-- The payload entries that pass the type/name/orders filter. -/
def qualifyingEntries (api_data : List ApiEntry) : List ApiEntry :=
  api_data.filter qualifies

/-- Sum of `PickTimeInSec_V2` over the qualifying entries. -/
def sumPickTime (api_data : List ApiEntry) : ℚ :=
  ((qualifyingEntries api_data).map (fun e => e.metrics.PickTimeInSec)).sum

/-- Sum of `PickedUnits_V2` over the qualifying entries. -/
def sumPickedUnits (api_data : List ApiEntry) : ℚ :=
  ((qualifyingEntries api_data).map (fun e => e.metrics.PickedUnits)).sum

/-- Sum of `RequestedQuantity_V2` over the qualifying entries. -/
def sumReqUnits (api_data : List ApiEntry) : ℚ :=
  ((qualifyingEntries api_data).map (fun e => e.metrics.RequestedQuantity)).sum

/-- Sum of `requested_units × inf_rate/100` over the qualifying entries. -/
def sumInfNumerator (api_data : List ApiEntry) : ℚ :=
  ((qualifyingEntries api_data).map
    (fun e => e.metrics.RequestedQuantity * (e.metrics.ItemNotFoundRate / 100))).sum

/-- The raw per-worker UPH value of one entry, before formatting. -/
def perWorkerUph (e : ApiEntry) : ℚ :=
  if 0 < e.metrics.PickTimeInSec then e.metrics.PickedUnits / (e.metrics.PickTimeInSec / 3600) else 0

/-- Arithmetic mean of the per-worker UPH values of the qualifying entries. -/
def uphMean (api_data : List ApiEntry) : ℚ :=
  ((qualifyingEntries api_data).map perWorkerUph).sum / ((qualifyingEntries api_data).length : ℚ)

/-- Sum of a list of totals records, componentwise. -/
def totalsSum (l : List StoreTotals) : StoreTotals := l.foldr (· + ·) zeroTotals

/-!
Notifications (src/notifications.py): the store-report fragment relevant to
the "no active shoppers" rendering, and the fleet aggregation loop of
`post_aggregate_summary`.
-/

/-- Threshold constant from src/settings.py. -/
def UPH_THRESHOLD : ℚ := 80

/-- Threshold constant from src/settings.py. -/
def LATES_THRESHOLD : ℚ := 3

/-- Threshold constant from src/settings.py. -/
def INF_THRESHOLD : ℚ := 2

/-- Emoji constant from src/settings.py. -/
def EMOJI_GREEN_CHECK : String := "✅"

/-- Emoji constant from src/settings.py. -/
def EMOJI_RED_CROSS : String := "❌"

/-- Model of `_format_metric_with_emoji(value_str, threshold, is_uph)`.
The argument is the `overall.get(...)` lookup, hence an `Option String`;
passing `None` raises `TypeError` inside `re.sub`, which the handler turns
into returning the value itself, rendered `"None"` by the surrounding
f-string. A cleaned string `float()` cannot parse is returned unchanged. -/
def format_metric_with_emoji (value : Option String) (threshold : ℚ) (is_uph : Bool) : String :=
  match value with
  | none => "None"
  | some s =>
      match pyFloat (stripNonNumeric s) with
      | none => s
      | some x =>
          let is_good := if is_uph then threshold ≤ x else x ≤ threshold
          s ++ " " ++ (if is_good then EMOJI_GREEN_CHECK else EMOJI_RED_CROSS)

/-- The `summary_text` built by `post_store_report` when the shopper list is
non-empty. -/
def summaryText (o : OverallDict) : String :=
  "• <b>UPH:</b> " ++ format_metric_with_emoji o.uph UPH_THRESHOLD true ++ "<br>" ++
  "• <b>Lates:</b> " ++ format_metric_with_emoji o.lates LATES_THRESHOLD false ++ "<br>" ++
  "• <b>INF:</b> " ++ format_metric_with_emoji o.inf INF_THRESHOLD false ++ "<br>" ++
  "• <b>Orders:</b> " ++ (match o.orders with | none => "None" | some s => s)

/-- The text of the "Store-Wide Performance" section of the per-store report:
the metrics summary when there are shoppers, else the fixed message. -/
def storeWideSectionText (data : StoreData) : String :=
  if !data.shoppers.isEmpty then summaryText data.overall
  else "No active shoppers found for this period."

/-- One scraped top-INF row item (the dict built by `scrape_inf_data`). -/
structure InfItem where
  image_url : String
  sku : String
  product_name : String
  inf_units : String
  orders_impacted : String
  inf_pct : String
deriving DecidableEq

/-- The combined per-store record built in `main`:
`{**metrics_data, "inf_items": ...}`. -/
structure CombinedData where
  overall : OverallDict
  shoppers : List ShopperStat
  inf_items : List InfItem
deriving DecidableEq

/-- The combination step of the run controller, for one store:
`if metrics_data: combined_data = {**metrics_data, "inf_items": inf_items if
inf_items is not None else []}` — a `None` metrics result skips the store,
a `None` INF result is replaced by the empty list. -/
def combineStore (metrics_data : Option StoreData) (inf_items : Option (List InfItem)) :
    Option CombinedData :=
  match metrics_data with
  | none => none
  | some m => some ⟨m.overall, m.shoppers, inf_items.getD []⟩

/-!
Fleet aggregation, `post_aggregate_summary`. The per-store `overall` dict
reaches it as strings; the loop immediately coerces them with
`int(o.get('orders', 0))`, `float(o.get('uph', 0))` and
`float(re.sub(r"[^\d.]", "", o.get('lates', '0')))` (same for `inf`).
The embedding works at this post-coercion boundary: each store carries the
already-parsed numbers those expressions produce (absent keys giving `0`),
while the `store` identity keeps its raw `Option String` form because the
filter tests its truthiness directly.
-/

/-- The numeric view of one run result's `overall` dict used by the fleet
summary loop. -/
structure FleetStoreOverall where
  store : Option String
  orders : ℤ
  units : ℤ
  uph : ℚ
  lates : ℚ
  inf : ℚ
deriving DecidableEq

/-- One element of the `results` list given to `post_aggregate_summary`. -/
structure FleetRunResult where
  overall : FleetStoreOverall
  inf_items : List InfItem
deriving DecidableEq

/-- Python truthiness of `r.get('overall', {}).get('store')`: present and
non-empty. -/
def truthyStr : Option String → Bool
  | none => false
  | some s => !(s == "")

/-- `successful_results = [r for r in results if r.get('overall', {}).get('store')]`. -/
def successful_results (results : List FleetRunResult) : List FleetRunResult :=
  results.filter (fun r => truthyStr r.overall.store)

/-- The five running totals accumulated by the fleet summary loop. -/
structure FleetTotals where
  total_orders : ℤ
  total_units : ℤ
  fleet_pick_time_sec : ℚ
  fleet_weighted_lates : ℚ
  fleet_weighted_inf : ℚ
deriving DecidableEq

/-- One iteration of the fleet summary loop: simple sums for orders/units,
`units/uph*3600` added to pick time only when `uph > 0`, and the
orders-weighted lates and units-weighted INF numerators. -/
def fleetStep (acc : FleetTotals) (r : FleetRunResult) : FleetTotals :=
  let o := r.overall
  { total_orders := acc.total_orders + o.orders
    total_units := acc.total_units + o.units
    fleet_pick_time_sec :=
      acc.fleet_pick_time_sec + (if 0 < o.uph then ((o.units : ℚ) / o.uph) * 3600 else 0)
    fleet_weighted_lates := acc.fleet_weighted_lates + o.lates * (o.orders : ℚ)
    fleet_weighted_inf := acc.fleet_weighted_inf + o.inf * (o.units : ℚ) }

/-- The loop of `post_aggregate_summary` over the filtered results. -/
def fleetTotals (results : List FleetRunResult) : FleetTotals :=
  (successful_results results).foldl fleetStep ⟨0, 0, 0, 0, 0⟩

/-- `fleet_uph = (total_units/(fleet_pick_time_sec/3600)) if fleet_pick_time_sec > 0 else 0`. -/
def fleet_uph (t : FleetTotals) : ℚ :=
  if 0 < t.fleet_pick_time_sec then (t.total_units : ℚ) / (t.fleet_pick_time_sec / 3600) else 0

/-- `fleet_lates = (fleet_weighted_lates/total_orders) if total_orders > 0 else 0`. -/
def fleet_lates (t : FleetTotals) : ℚ :=
  if 0 < t.total_orders then t.fleet_weighted_lates / (t.total_orders : ℚ) else 0

/-- `fleet_inf = (fleet_weighted_inf/total_units) if total_units > 0 else 0`. -/
def fleet_inf (t : FleetTotals) : ℚ :=
  if 0 < t.total_units then t.fleet_weighted_inf / (t.total_units : ℚ) else 0

/-!
Inventory-insight extractor, `scrape_inf_data`. The browser interaction is
abstracted into an outcome: either some step raised (navigation, readiness
wait, row reads — the `except Exception` path returning `None`), or the page
became ready with a list of table rows (as they stand after the sort click,
whose confirmation timeout is tolerated and changes nothing). An initial
first-row visibility timeout, i.e. zero rows, is the early `return []`.
-/

/-- One rendered row of the inventory-insight table: the cell texts read at
the fixed column positions, and the thumbnail `src` attribute (which
`get_attribute` can return as `None`, defaulted to `''` by `or ''`). -/
structure InfRow where
  thumb : Option String
  sku : String
  product_name : String
  inf_units : String
  orders_impacted : String
  inf_pct : String
deriving DecidableEq

/-- Abstract outcome of driving the inventory-insight page. -/
inductive InfPageOutcome where
  | fatalError : InfPageOutcome
  | ready (rows : List InfRow) : InfPageOutcome

/-- Number of leading characters matched by the pattern `\._SS\d+_\.`
anchored at the head of the character list, if it matches there. -/
def matchSizeToken : List Char → Option (List Char)
  | '.' :: '_' :: 'S' :: 'S' :: rest =>
      let digits := rest.takeWhile (fun c => c.isDigit)
      let tail := rest.dropWhile (fun c => c.isDigit)
      if digits.isEmpty then none
      else
        match tail with
        | '_' :: '.' :: tail2 => some tail2
        | _ => none
  | _ => none

/-- Fuelled scan replacing every occurrence of `._SS<digits>_.` with
`._SS300_.` (SMALL_IMAGE_SIZE = 300), the `re.sub` on the thumbnail URL. -/
def subSizeTokenAux : ℕ → List Char → List Char
  | 0, s => s
  | _ + 1, [] => []
  | fuel + 1, c :: rest =>
      match matchSizeToken (c :: rest) with
      | some tail => "._SS300_.".toList ++ subSizeTokenAux fuel tail
      | none => c :: subSizeTokenAux fuel rest

/-- `re.sub(r"\._SS\d+_\.", f"._SS{SMALL_IMAGE_SIZE}_.", thumb)`. -/
def rewriteImageUrl (s : String) : String :=
  String.mk (subSizeTokenAux s.length s.toList)

/-- The item dict built from one table row. -/
def extractInfRow (r : InfRow) : InfItem :=
  { image_url := rewriteImageUrl (r.thumb.getD "")
    sku := r.sku
    product_name := r.product_name
    inf_units := r.inf_units
    orders_impacted := r.orders_impacted
    inf_pct := r.inf_pct }

/-- The observable behavior of `scrape_inf_data`: `None` on failure, the
early empty list when no rows render, else the first 5 rows extracted. -/
def scrape_inf_data : InfPageOutcome → Option (List InfItem)
  | .fatalError => none
  | .ready rows =>
      if rows.isEmpty then some []
      else some ((rows.take 5).map extractInfRow)

/-!
Session guard, `check_if_login_needed` (src/auth.py; the scraper.py variant
differs only in the dashboard marker selector). The single probe navigation
either raises or lands on a URL; after landing, the marker-visibility wait
either succeeds or raises. Both raise paths are the `except` returning True.
-/

/-- Abstract outcome of the one probe navigation: the navigation itself can
raise, or it lands on `page.url` after which the bounded marker wait either
sees the authenticated-dashboard marker or times out. -/
inductive ProbeStep where
  | gotoFailed : ProbeStep
  | landed (url : String) (markerBecameVisible : Bool) : ProbeStep

/-- The sign-in-style address test
`"signin" in page.url.lower() or "/ap/" in page.url`. -/
def isSigninStyleUrl (url : String) : Bool :=
  strHasSub url.toLower "signin" || strHasSub url "/ap/"

/-- Model of `check_if_login_needed`: sign-in-style address → True; else
wait for the dashboard marker — visible → False, timeout (or any other
raise) → the `except` returns True. One probe attempt, no retries. -/
def check_if_login_needed : ProbeStep → Bool
  | .gotoFailed => true
  | .landed url marker =>
      if isSigninStyleUrl url then true
      else if marker then false
      else true

/-!
Retry wrapper. Modelled from the spec: the generic retry wrapper
(`run_with_retries`, §4.5) applied around each extraction call by the run
controller is declared through `SCRAPE_RETRY_ATTEMPTS`/`SCRAPE_RETRY_DELAY`
in src/settings.py, but its definition and the refactored run controller
that applies it are not among the provided sources (the legacy scraper.py
main loop predates it). Attempt `k` of the wrapped operation is modelled as
`op k : Option α`, `none` standing for any failure the wrapper retries
(a raised exception or a null/empty result); the fixed inter-attempt sleep
has no observable effect in this model. -/
def SCRAPE_RETRY_ATTEMPTS : ℕ := 3

/-- Modelled from the spec: attempt loop of the retry wrapper; `k` attempts
already made, `n` remaining. Returns the final result together with the
number of times the operation was invoked. -/
def retryAux {α : Type} (op : ℕ → Option α) : ℕ → ℕ → Option α × ℕ
  | k, 0 => (none, k)
  | k, n + 1 =>
      match op k with
      | some v => (some v, k + 1)
      | none => retryAux op (k + 1) n

/-- Modelled from the spec: `run_with_retries(operation, max_attempts)` —
invoke the operation up to `max_attempts` times, returning the first
success, or `None` (never raising) after the final failed attempt; also
reports the invocation count. -/
def run_with_retries {α : Type} (op : ℕ → Option α) (max_attempts : ℕ) : Option α × ℕ :=
  retryAux op 0 max_attempts

/-!
Concrete payloads used by the end-to-end scenario conjuncts and witnesses.
-/

/-- Scenario A worker 1 metrics: orders 10, units 800, pick-time 3600 s,
INF 1.0 %, lates 0 %, requested units 100. -/
def scenarioMetricsA : ApiMetrics := ⟨10, 800, 3600, 1, 0, 100⟩

/-- Scenario A worker 2 metrics: orders 5, units 200, pick-time 900 s,
INF 5.0 %, lates 0 %, requested units 40. -/
def scenarioMetricsB : ApiMetrics := ⟨5, 200, 900, 5, 0, 40⟩

/-- End-to-end scenario A: one store, two MASTER workers. -/
def scenarioA : List ApiEntry :=
  [⟨some "MASTER", some "A", scenarioMetricsA⟩,
   ⟨some "MASTER", some "B", scenarioMetricsB⟩]

/-- A payload on which the ratio-of-sums UPH (1000/3) differs from the
arithmetic mean of the per-worker UPH values (450): per-worker UPHs are
800 and 100. -/
def meanCexPayload : List ApiEntry :=
  [⟨some "MASTER", some "A", ⟨1, 800, 3600, 0, 0, 0⟩⟩,
   ⟨some "MASTER", some "B", ⟨1, 200, 7200, 0, 0, 0⟩⟩]

/-- An entry whose shopped-orders count is zero (other fields arbitrary
non-zero), used to witness the exclusion property. -/
def zeroOrdersEntry : ApiEntry := ⟨some "MASTER", some "Z", ⟨0, 123, 456, 7, 8, 9⟩⟩

/-- A payload in which no entry qualifies: both entries have orders 0. -/
def scenarioB : List ApiEntry :=
  [⟨some "MASTER", some "A", ⟨0, 800, 3600, 1, 0, 100⟩⟩,
   ⟨some "MASTER", some "B", ⟨0, 200, 900, 5, 0, 40⟩⟩]

/-- Spec-side reading of the fleet orders fold: a simple sum over the
included stores. -/
def fleetOrdersSum (results : List FleetRunResult) : ℤ :=
  ((successful_results results).map (fun r => r.overall.orders)).sum

/-- Spec-side reading of the fleet units fold: a simple sum over the
included stores. -/
def fleetUnitsSum (results : List FleetRunResult) : ℤ :=
  ((successful_results results).map (fun r => r.overall.units)).sum

/-- Spec-side reading of the fleet pick-time fold: `units/uph×3600` summed
over exactly the included stores with positive UPH (a zero-UPH store
contributes zero pick-time). -/
def fleetPickTimeSum (results : List FleetRunResult) : ℚ :=
  ((successful_results results).map
    (fun r => if 0 < r.overall.uph then ((r.overall.units : ℚ) / r.overall.uph) * 3600 else 0)).sum

/-- Spec-side reading of the fleet lates numerator: per-store lates-rate ×
orders, summed over the included stores. -/
def fleetLatesNumSum (results : List FleetRunResult) : ℚ :=
  ((successful_results results).map (fun r => r.overall.lates * (r.overall.orders : ℚ))).sum

/-- Spec-side reading of the fleet INF numerator: per-store inf-rate ×
units, summed over the included stores. -/
def fleetInfNumSum (results : List FleetRunResult) : ℚ :=
  ((successful_results results).map (fun r => r.overall.inf * (r.overall.units : ℚ))).sum

/-- A fleet run result with a store identity and positive UPH. -/
def fleetResA : FleetRunResult := ⟨⟨some "Store A", 10, 800, 800, 1, 2⟩, []⟩

/-- A fleet run result lacking a store identity (a totally failed store). -/
def fleetResNoStore : FleetRunResult := ⟨⟨none, 3, 30, 10, 1, 1⟩, []⟩

/-- A fleet run result with a store identity, units, and UPH zero — the
known pick-time under-count edge case. -/
def fleetResZeroUph : FleetRunResult := ⟨⟨some "Store Z", 2, 50, 0, 1, 1⟩, []⟩

/-- A small run-result list exercising the fleet filter. -/
def fleetSample : List FleetRunResult := [fleetResA, fleetResNoStore]

/-- An operation that fails on attempts 0 and 1 and succeeds on attempt 2. -/
def opFailTwice : ℕ → Option ℕ := fun k => if k < 2 then none else some 42

/-- An operation that always fails. -/
def opAlwaysFail : ℕ → Option ℕ := fun _ => none

theorem StoreTotals.add_def (a b : StoreTotals) :
    a + b = ⟨a.units + b.units, a.time + b.time, a.orders + b.orders,
             a.req_units + b.req_units, a.inf_items + b.inf_items, a.lates + b.lates⟩ := rfl

theorem StoreTotals.add_zero_right (t : StoreTotals) : t + zeroTotals = t := by
  cases t
  simp [StoreTotals.add_def, zeroTotals]

theorem StoreTotals.zero_add_left (t : StoreTotals) : zeroTotals + t = t := by
  cases t
  simp [StoreTotals.add_def, zeroTotals]

theorem StoreTotals.add_assoc (a b c : StoreTotals) : a + b + c = a + (b + c) := by
  cases a
  cases b
  cases c
  simp only [StoreTotals.add_def, StoreTotals.mk.injEq]
  refine ⟨?_, ?_, ?_, ?_, ?_, ?_⟩ <;> ring

/-- The payload loop, run from any accumulator, appends exactly the worker
dicts of the qualifying entries and adds exactly the sum of their totals. -/
theorem foldl_stepEntry (api_data : List ApiEntry) :
    ∀ (stats : List ShopperStat) (t : StoreTotals),
      api_data.foldl stepEntry (stats, t) =
        (stats ++ (qualifyingEntries api_data).map statOf,
         t + totalsSum ((qualifyingEntries api_data).map (fun e => entryTotals e.metrics))) := by
  induction api_data with
  | nil =>
      intro stats t
      simp [qualifyingEntries, totalsSum, StoreTotals.add_zero_right]
  | cons e rest ih =>
      intro stats t
      by_cases h1 : (e.type == some "MASTER" && nameOk e.shopperName) = true
      · by_cases h2 : (e.metrics.OrdersShopped == 0) = true
        · have hq : qualifies e = false := by
            simp [qualifies, h2]
          simp only [List.foldl_cons, stepEntry, h1, h2, if_true]
          rw [ih]
          simp [qualifyingEntries, hq]
        · have hc : (e.metrics.OrdersShopped == 0) = false := by
            simpa using h2
          have hq : qualifies e = true := by
            simp [qualifies, h1, hc]
          simp only [List.foldl_cons, stepEntry, h1, hc, if_true, Bool.false_eq_true,
            if_false]
          rw [ih]
          simp only [qualifyingEntries, List.filter_cons, hq, if_true, List.map_cons,
            totalsSum, List.foldr_cons, Prod.mk.injEq]
          refine ⟨by simp [statOf], ?_⟩
          rw [StoreTotals.add_assoc]
      · have hb : (e.type == some "MASTER" && nameOk e.shopperName) = false := by
          simpa using h1
        have hq : qualifies e = false := by
          simp [qualifies, hb]
        simp only [List.foldl_cons, stepEntry, hb, Bool.false_eq_true, if_false]
        rw [ih]
        simp [qualifyingEntries, hq]

/-- The `shopper_stats` list the loop builds is exactly the worker dicts of
the qualifying entries, in payload encounter order. -/
theorem scrapeLoop_fst (api_data : List ApiEntry) :
    (scrapeLoop api_data).1 = (qualifyingEntries api_data).map statOf := by
  rw [scrapeLoop, foldl_stepEntry]
  simp

/-- The `store_totals` the loop builds is exactly the sum of the qualifying
entries' contributions. -/
theorem scrapeLoop_snd (api_data : List ApiEntry) :
    (scrapeLoop api_data).2 =
      totalsSum ((qualifyingEntries api_data).map (fun e => entryTotals e.metrics)) := by
  rw [scrapeLoop, foldl_stepEntry]
  simp [StoreTotals.zero_add_left]

theorem totalsSum_units (l : List StoreTotals) :
    (totalsSum l).units = (l.map (fun t => t.units)).sum := by
  induction l with
  | nil => simp [totalsSum, zeroTotals]
  | cons x xs ih => simp [totalsSum, List.foldr_cons, StoreTotals.add_def] at ih ⊢; rw [ih]

theorem totalsSum_time (l : List StoreTotals) :
    (totalsSum l).time = (l.map (fun t => t.time)).sum := by
  induction l with
  | nil => simp [totalsSum, zeroTotals]
  | cons x xs ih => simp [totalsSum, List.foldr_cons, StoreTotals.add_def] at ih ⊢; rw [ih]

theorem totalsSum_req_units (l : List StoreTotals) :
    (totalsSum l).req_units = (l.map (fun t => t.req_units)).sum := by
  induction l with
  | nil => simp [totalsSum, zeroTotals]
  | cons x xs ih => simp [totalsSum, List.foldr_cons, StoreTotals.add_def] at ih ⊢; rw [ih]

theorem totalsSum_inf_items (l : List StoreTotals) :
    (totalsSum l).inf_items = (l.map (fun t => t.inf_items)).sum := by
  induction l with
  | nil => simp [totalsSum, zeroTotals]
  | cons x xs ih => simp [totalsSum, List.foldr_cons, StoreTotals.add_def] at ih ⊢; rw [ih]

/-- Componentwise readings of the loop totals as plain sums. -/
theorem scrapeLoop_time (api_data : List ApiEntry) :
    (scrapeLoop api_data).2.time = sumPickTime api_data := by
  rw [scrapeLoop_snd, totalsSum_time, sumPickTime, List.map_map]
  rfl

theorem scrapeLoop_units (api_data : List ApiEntry) :
    (scrapeLoop api_data).2.units = sumPickedUnits api_data := by
  rw [scrapeLoop_snd, totalsSum_units, sumPickedUnits, List.map_map]
  rfl

theorem scrapeLoop_req_units (api_data : List ApiEntry) :
    (scrapeLoop api_data).2.req_units = sumReqUnits api_data := by
  rw [scrapeLoop_snd, totalsSum_req_units, sumReqUnits, List.map_map]
  rfl

theorem scrapeLoop_inf_items (api_data : List ApiEntry) :
    (scrapeLoop api_data).2.inf_items = sumInfNumerator api_data := by
  rw [scrapeLoop_snd, totalsSum_inf_items, sumInfNumerator, List.map_map]
  rfl

/-- The non-degenerate branch of `scrape_store_metrics`, exposed for reuse:
when some entry qualifies, the result carries the formatted overall dict and
the sorted shopper list. -/
theorem scrape_store_metrics_pos (store_name : String) (api_data : List ApiEntry)
    (h : qualifyingEntries api_data ≠ []) :
    scrape_store_metrics store_name api_data =
      { overall :=
          ⟨store_name,
           some (toString (pyInt (scrapeLoop api_data).2.orders)),
           some (toString (pyInt (scrapeLoop api_data).2.units)),
           some (fmt0 (overall_uph (scrapeLoop api_data).2)),
           some (fmt1 (overall_inf (scrapeLoop api_data).2) ++ " %"),
           some (fmt1 (overall_lates (scrapeLoop api_data).2) ++ " %")⟩
        shoppers := List.mergeSort (scrapeLoop api_data).1 shopperLE } := by
  have hne : (scrapeLoop api_data).1.isEmpty = false := by
    rw [scrapeLoop_fst]
    simp only [List.isEmpty_eq_false, ne_eq, List.map_eq_nil_iff]
    exact h
  rw [scrape_store_metrics]
  simp only [hne, Bool.false_eq_true, if_false]

/-- C1: for every processed payload, the store overall UPH value is the
ratio of summed picked units to summed pick time (in hours) over the
qualifying entries, `0` when the summed pick time is not positive, and the
rendered `uph` field is that value formatted; it is not computed as the
arithmetic mean of the per-worker UPH values, which differs from it on
`meanCexPayload`. -/
theorem claim_C1 :
    (∀ (store_name : String) (api_data : List ApiEntry),
        overall_uph (scrapeLoop api_data).2 =
          (if 0 < sumPickTime api_data then
            sumPickedUnits api_data / (sumPickTime api_data / 3600) else 0)
        ∧ (qualifyingEntries api_data ≠ [] →
            (scrape_store_metrics store_name api_data).overall.uph =
              some (fmt0 (if 0 < sumPickTime api_data then
                sumPickedUnits api_data / (sumPickTime api_data / 3600) else 0))))
    ∧ overall_uph (scrapeLoop meanCexPayload).2 ≠ uphMean meanCexPayload := by
  have key : ∀ api_data : List ApiEntry,
      overall_uph (scrapeLoop api_data).2 =
        (if 0 < sumPickTime api_data then
          sumPickedUnits api_data / (sumPickTime api_data / 3600) else 0) := by
    intro api_data
    rw [overall_uph, scrapeLoop_time, scrapeLoop_units]
  refine ⟨fun store_name api_data => ⟨key api_data, fun h => ?_⟩, ?_⟩
  · rw [scrape_store_metrics_pos store_name api_data h]
    simp only [key api_data]
  · with_unfolding_all decide

/-- Witness for C1 at scenario A: the payload has qualifying entries, and
the rendered store UPH is the formatted ratio of sums. -/
theorem claim_C1_witness :
    qualifyingEntries scenarioA ≠ [] ∧
    (scrape_store_metrics "Store" scenarioA).overall.uph =
      some (fmt0 (if 0 < sumPickTime scenarioA then
        sumPickedUnits scenarioA / (sumPickTime scenarioA / 3600) else 0)) :=
  ⟨by with_unfolding_all decide,
   (claim_C1.1 "Store" scenarioA).2 (by with_unfolding_all decide)⟩

/-- C2: for every processed payload, the store overall INF rate is
`100 × Σ(requested_units × inf_rate/100) / Σ requested_units` when the
summed requested units are positive, else `0`; on scenario A (requested
units 100 and 40 at rates 1.0 % and 5.0 %) the rendered field is exactly
`"2.1 %"`. -/
theorem claim_C2 :
    (∀ api_data : List ApiEntry,
        overall_inf (scrapeLoop api_data).2 =
          (if 0 < sumReqUnits api_data then
            100 * sumInfNumerator api_data / sumReqUnits api_data else 0))
    ∧ (scrape_store_metrics "Store" scenarioA).overall.inf = some "2.1 %" := by
  constructor
  · intro api_data
    rw [overall_inf, scrapeLoop_req_units, scrapeLoop_inf_items]
    split_ifs with h
    · ring
    · rfl
  · with_unfolding_all decide

/-- A zero-orders entry leaves one loop step unchanged, whatever its other
fields. -/
theorem stepEntry_zero_orders (acc : List ShopperStat × StoreTotals) (e : ApiEntry)
    (h : e.metrics.OrdersShopped = 0) : stepEntry acc e = acc := by
  simp [stepEntry, h]

/-- Every shopper dict in a store result comes from a qualifying payload
entry. -/
theorem mem_shoppers_sourced (store_name : String) (api_data : List ApiEntry)
    (s : ShopperStat) (hs : s ∈ (scrape_store_metrics store_name api_data).shoppers) :
    ∃ e ∈ api_data, qualifies e = true ∧ s = statOf e := by
  rw [scrape_store_metrics] at hs
  by_cases hE : (scrapeLoop api_data).1.isEmpty = true
  · simp only [hE, if_true] at hs
    simp at hs
  · simp only [hE, Bool.false_eq_true, if_false] at hs
    rw [List.mem_mergeSort, scrapeLoop_fst] at hs
    obtain ⟨e, he, rfl⟩ := List.mem_map.mp hs
    obtain ⟨hmem, hq⟩ := List.mem_filter.mp he
    exact ⟨e, hmem, hq, rfl⟩

/-- C5: an entry with a zero shopped-orders count is excluded from the
result regardless of its other fields; a worker dict is only ever produced
from an entry passing the MASTER/name/orders filter; and for payloads whose
order counts are non-negative integers (as the API's counts are), every
emitted worker dict has a strictly positive `orders` field. -/
theorem claim_C5 :
    (∀ (store_name : String) (api₁ api₂ : List ApiEntry) (e : ApiEntry),
        e.metrics.OrdersShopped = 0 →
        scrape_store_metrics store_name (api₁ ++ e :: api₂) =
          scrape_store_metrics store_name (api₁ ++ api₂))
    ∧ (∀ (store_name : String) (api_data : List ApiEntry),
        (∀ e ∈ api_data, e.metrics.OrdersShopped.den = 1 ∧ 0 ≤ e.metrics.OrdersShopped) →
        ∀ s ∈ (scrape_store_metrics store_name api_data).shoppers, 0 < s.orders)
    ∧ (∀ (store_name : String) (api_data : List ApiEntry) (s : ShopperStat),
        s ∈ (scrape_store_metrics store_name api_data).shoppers →
        ∃ e ∈ api_data, qualifies e = true ∧ s = statOf e) := by
  refine ⟨?_, ?_, mem_shoppers_sourced⟩
  · intro store_name api₁ api₂ e h
    have hl : scrapeLoop (api₁ ++ e :: api₂) = scrapeLoop (api₁ ++ api₂) := by
      rw [scrapeLoop, scrapeLoop, List.foldl_append, List.foldl_append, List.foldl_cons,
        stepEntry_zero_orders _ _ h]
    rw [scrape_store_metrics, scrape_store_metrics, hl]
  · intro store_name api_data h s hs
    obtain ⟨e, hmem, hq, rfl⟩ := mem_shoppers_sourced store_name api_data s hs
    obtain ⟨hden, hnonneg⟩ := h e hmem
    have hne : e.metrics.OrdersShopped ≠ 0 := by
      intro h0
      rw [qualifies, h0] at hq
      simp at hq
    have hnum : ((e.metrics.OrdersShopped.num : ℚ)) = e.metrics.OrdersShopped :=
      (Rat.den_eq_one_iff _).mp hden
    have horders : (statOf e).orders = e.metrics.OrdersShopped.num := by
      rw [statOf, mkStat, pyInt]
      simp only [if_pos hnonneg]
      nth_rewrite 1 [← hnum]
      rw [Int.floor_intCast]
    rw [horders]
    have h0le : 0 ≤ e.metrics.OrdersShopped.num := Rat.num_nonneg.mpr hnonneg
    have h0ne : e.metrics.OrdersShopped.num ≠ 0 := Rat.num_ne_zero.mpr hne
    omega

/-- Witness for C5: a zero-orders entry prepended to scenario A changes
nothing, and the scenario A worker dict for worker A has positive orders. -/
theorem claim_C5_witness :
    (zeroOrdersEntry.metrics.OrdersShopped = 0 ∧
      scrape_store_metrics "Store" ([] ++ zeroOrdersEntry :: scenarioA) =
        scrape_store_metrics "Store" ([] ++ scenarioA))
    ∧ 0 < (mkStat "A" scenarioMetricsA).orders :=
  ⟨⟨by with_unfolding_all decide,
    claim_C5.1 "Store" [] scenarioA zeroOrdersEntry (by with_unfolding_all decide)⟩,
   claim_C5.2.1 "Store" scenarioA (by with_unfolding_all decide)
     (mkStat "A" scenarioMetricsA) (by with_unfolding_all decide)⟩

/-- The shopper order relation is transitive. -/
theorem shopperLE_trans : ∀ (a b c : ShopperStat),
    shopperLE a b → shopperLE b c → shopperLE a c := by
  intro a b c hab hbc
  simp only [shopperLE, decide_eq_true_eq] at *
  exact le_trans hab hbc

/-- The shopper order relation is total. -/
theorem shopperLE_total : ∀ (a b : ShopperStat), shopperLE a b || shopperLE b a := by
  intro a b
  simp only [shopperLE, Bool.or_eq_true, decide_eq_true_eq]
  exact le_total _ _

/-- Stability of the sort: the records at any fixed key value come out in
exactly their input order. -/
theorem mergeSort_filter_key (l : List ShopperStat) (k : ℚ) :
    (List.mergeSort l shopperLE).filter (fun s => shopperSortKey s == k)
      = l.filter (fun s => shopperSortKey s == k) := by
  have hperm := (List.mergeSort_perm l shopperLE).filter (fun s => shopperSortKey s == k)
  have hpair : (l.filter (fun s => shopperSortKey s == k)).Pairwise
      (fun a b => shopperLE a b) := by
    apply List.pairwise_of_forall_mem_list
    intro a ha b hb
    simp only [List.mem_filter, beq_iff_eq] at ha hb
    simp [shopperLE, ha.2, hb.2]
  have hsub : List.Sublist (l.filter (fun s => shopperSortKey s == k))
      (List.mergeSort l shopperLE) :=
    List.sublist_mergeSort shopperLE_trans shopperLE_total hpair (List.filter_sublist l)
  have hsub2 := hsub.filter (fun s => shopperSortKey s == k)
  have hself : (l.filter (fun s => shopperSortKey s == k)).filter
      (fun s => shopperSortKey s == k) = l.filter (fun s => shopperSortKey s == k) := by
    rw [List.filter_filter]
    simp
  rw [hself] at hsub2
  exact (hsub2.eq_of_length hperm.symm.length_eq).symm

/-- C8: the shopper list of every store result is sorted ascending by the
sort key parsed back from the formatted INF rate, and records with equal
key appear in exactly their payload encounter order (the order of
`shopper_stats`, i.e. of the qualifying entries). -/
theorem claim_C8 : ∀ (store_name : String) (api_data : List ApiEntry),
    ((scrape_store_metrics store_name api_data).shoppers).Pairwise
      (fun a b => shopperSortKey a ≤ shopperSortKey b)
    ∧ ∀ k : ℚ,
      ((scrape_store_metrics store_name api_data).shoppers).filter
          (fun s => shopperSortKey s == k)
        = ((scrapeLoop api_data).1).filter (fun s => shopperSortKey s == k) := by
  intro store_name api_data
  rw [scrape_store_metrics]
  by_cases hE : (scrapeLoop api_data).1.isEmpty = true
  · have hnil : (scrapeLoop api_data).1 = [] := List.isEmpty_iff.mp hE
    simp [hE, hnil]
  · simp only [hE, Bool.false_eq_true, if_false]
    constructor
    · exact (List.sorted_mergeSort shopperLE_trans shopperLE_total
        (scrapeLoop api_data).1).imp (fun h => of_decide_eq_true h)
    · intro k
      exact mergeSort_filter_key (scrapeLoop api_data).1 k

/-- C9: when no payload entry qualifies, the extractor returns the
degenerate result — the store identity with an empty worker list and no
aggregate fields — and the store report's first section renders the
"no active shoppers" message. -/
theorem claim_C9 : ∀ (store_name : String) (api_data : List ApiEntry),
    (∀ e ∈ api_data, qualifies e = false) →
    scrape_store_metrics store_name api_data =
      ⟨⟨store_name, none, none, none, none, none⟩, []⟩
    ∧ storeWideSectionText (scrape_store_metrics store_name api_data) =
      "No active shoppers found for this period." := by
  intro store_name api_data h
  have hfil : qualifyingEntries api_data = [] := by
    rw [qualifyingEntries, List.filter_eq_nil_iff]
    intro a ha
    simp [h a ha]
  have hnil : (scrapeLoop api_data).1 = [] := by
    rw [scrapeLoop_fst, hfil]
    rfl
  have hres : scrape_store_metrics store_name api_data =
      ⟨⟨store_name, none, none, none, none, none⟩, []⟩ := by
    rw [scrape_store_metrics]
    simp [hnil]
  refine ⟨hres, ?_⟩
  rw [hres]
  simp [storeWideSectionText]

/-- Witness for C9 at scenario B (all entries have orders 0). -/
theorem claim_C9_witness :
    (∀ e ∈ scenarioB, qualifies e = false) ∧
    scrape_store_metrics "Store" scenarioB =
      ⟨⟨"Store", none, none, none, none, none⟩, []⟩ ∧
    storeWideSectionText (scrape_store_metrics "Store" scenarioB) =
      "No active shoppers found for this period." :=
  ⟨by with_unfolding_all decide,
   (claim_C9 "Store" scenarioB (by with_unfolding_all decide)).1,
   (claim_C9 "Store" scenarioB (by with_unfolding_all decide)).2⟩

/-- The fleet summary loop, run from any accumulator, adds exactly the five
componentwise sums. -/
theorem foldl_fleetStep (l : List FleetRunResult) :
    ∀ acc : FleetTotals,
      l.foldl fleetStep acc =
        ⟨acc.total_orders + (l.map (fun r => r.overall.orders)).sum,
         acc.total_units + (l.map (fun r => r.overall.units)).sum,
         acc.fleet_pick_time_sec + (l.map (fun r =>
           if 0 < r.overall.uph then ((r.overall.units : ℚ) / r.overall.uph) * 3600 else 0)).sum,
         acc.fleet_weighted_lates + (l.map (fun r => r.overall.lates * (r.overall.orders : ℚ))).sum,
         acc.fleet_weighted_inf + (l.map (fun r => r.overall.inf * (r.overall.units : ℚ))).sum⟩ := by
  induction l with
  | nil =>
      intro acc
      cases acc
      simp
  | cons r rest ih =>
      intro acc
      rw [List.foldl_cons, ih]
      simp only [fleetStep, List.map_cons, List.sum_cons, FleetTotals.mk.injEq]
      refine ⟨by ring, by ring, by ring, by ring, by ring⟩

/-- C3: fleet aggregation filters to results with a truthy store identity;
orders and units fold as simple sums; pick-time folds as `units/uph×3600`
over exactly the included positive-UPH stores, a zero-UPH store keeping its
units but adding no pick-time; the lates and INF numerators fold
orders-weighted and units-weighted; and the final fleet ratios are the
ratios of these sums, `0` on a non-positive denominator. -/
theorem claim_C3 : ∀ results : List FleetRunResult,
    (∀ r ∈ results, truthyStr r.overall.store = false → r ∉ successful_results results)
    ∧ (∀ r ∈ successful_results results, truthyStr r.overall.store = true)
    ∧ (fleetTotals results).total_orders = fleetOrdersSum results
    ∧ (fleetTotals results).total_units = fleetUnitsSum results
    ∧ (fleetTotals results).fleet_pick_time_sec = fleetPickTimeSum results
    ∧ (fleetTotals results).fleet_weighted_lates = fleetLatesNumSum results
    ∧ (fleetTotals results).fleet_weighted_inf = fleetInfNumSum results
    ∧ fleet_uph (fleetTotals results) =
        (if 0 < fleetPickTimeSum results then
          (fleetUnitsSum results : ℚ) / (fleetPickTimeSum results / 3600) else 0)
    ∧ fleet_lates (fleetTotals results) =
        (if 0 < fleetOrdersSum results then
          fleetLatesNumSum results / (fleetOrdersSum results : ℚ) else 0)
    ∧ fleet_inf (fleetTotals results) =
        (if 0 < fleetUnitsSum results then
          fleetInfNumSum results / (fleetUnitsSum results : ℚ) else 0)
    ∧ (∀ r : FleetRunResult, truthyStr r.overall.store = true → r.overall.uph = 0 →
        (fleetTotals (results ++ [r])).fleet_pick_time_sec =
          (fleetTotals results).fleet_pick_time_sec
        ∧ (fleetTotals (results ++ [r])).total_units =
          (fleetTotals results).total_units + r.overall.units) := by
  intro results
  have hT : fleetTotals results =
      ⟨fleetOrdersSum results, fleetUnitsSum results, fleetPickTimeSum results,
       fleetLatesNumSum results, fleetInfNumSum results⟩ := by
    rw [fleetTotals, foldl_fleetStep]
    simp [fleetOrdersSum, fleetUnitsSum, fleetPickTimeSum, fleetLatesNumSum, fleetInfNumSum]
  have happ : ∀ r : FleetRunResult, truthyStr r.overall.store = true →
      successful_results (results ++ [r]) = successful_results results ++ [r] := by
    intro r hr
    rw [successful_results, List.filter_append, successful_results]
    simp [hr]
  refine ⟨?_, ?_, ?_, ?_, ?_, ?_, ?_, ?_, ?_, ?_, ?_⟩
  · intro r _ hfalse hmem
    rw [successful_results, List.mem_filter] at hmem
    rw [hfalse] at hmem
    exact absurd hmem.2 (by simp)
  · intro r hmem
    exact (List.mem_filter.mp hmem).2
  · rw [hT]
  · rw [hT]
  · rw [hT]
  · rw [hT]
  · rw [hT]
  · rw [fleet_uph, hT]
  · rw [fleet_lates, hT]
  · rw [fleet_inf, hT]
  · intro r hr h0
    have h1 : fleetTotals (results ++ [r]) =
        (successful_results results ++ [r]).foldl fleetStep ⟨0, 0, 0, 0, 0⟩ := by
      rw [fleetTotals, happ r hr]
    rw [h1, foldl_fleetStep, fleetTotals, foldl_fleetStep]
    constructor
    · simp [h0]
    · simp

/-- Witness for C3: the identity-less result is excluded from the sample,
and appending the zero-UPH store to the sample leaves the fleet pick-time
unchanged while its units are added. -/
theorem claim_C3_witness :
    (fleetResNoStore ∈ fleetSample ∧ truthyStr fleetResNoStore.overall.store = false ∧
      fleetResNoStore ∉ successful_results fleetSample)
    ∧ (truthyStr fleetResZeroUph.overall.store = true ∧ fleetResZeroUph.overall.uph = 0 ∧
      (fleetTotals (fleetSample ++ [fleetResZeroUph])).fleet_pick_time_sec =
        (fleetTotals fleetSample).fleet_pick_time_sec
      ∧ (fleetTotals (fleetSample ++ [fleetResZeroUph])).total_units =
        (fleetTotals fleetSample).total_units + fleetResZeroUph.overall.units) :=
  ⟨⟨by with_unfolding_all decide, by with_unfolding_all decide,
    (claim_C3 fleetSample).1 fleetResNoStore (by with_unfolding_all decide)
      (by with_unfolding_all decide)⟩,
   ⟨by with_unfolding_all decide, by with_unfolding_all decide,
    ((claim_C3 fleetSample).2.2.2.2.2.2.2.2.2.2 fleetResZeroUph
      (by with_unfolding_all decide) (by with_unfolding_all decide)).1,
    ((claim_C3 fleetSample).2.2.2.2.2.2.2.2.2.2 fleetResZeroUph
      (by with_unfolding_all decide) (by with_unfolding_all decide)).2⟩⟩

/-- C6: the session probe returns true when the landed address is
sign-in-style, false when it is not and the dashboard marker becomes
visible, and true whenever any step of the single probe attempt errors
(navigation failure, or the marker wait timing out). -/
theorem claim_C6 :
    check_if_login_needed ProbeStep.gotoFailed = true
    ∧ (∀ (url : String) (marker : Bool), isSigninStyleUrl url = true →
        check_if_login_needed (ProbeStep.landed url marker) = true)
    ∧ (∀ url : String, isSigninStyleUrl url = false →
        check_if_login_needed (ProbeStep.landed url true) = false)
    ∧ (∀ url : String, isSigninStyleUrl url = false →
        check_if_login_needed (ProbeStep.landed url false) = true) := by
  refine ⟨rfl, ?_, ?_, ?_⟩
  · intro url marker h
    simp [check_if_login_needed, h]
  · intro url h
    simp [check_if_login_needed, h]
  · intro url h
    simp [check_if_login_needed, h]

/-- Witness for C6 at concrete URLs: a `/ap/` sign-in address probes true,
the dashboard address with a visible marker probes false, and the same
address with the marker wait failing probes true. -/
theorem claim_C6_witness :
    (isSigninStyleUrl "https://sellercentral.amazon.co.uk/ap/signin" = true ∧
      check_if_login_needed
        (ProbeStep.landed "https://sellercentral.amazon.co.uk/ap/signin" false) = true)
    ∧ (isSigninStyleUrl "https://sellercentral.amazon.co.uk/snowdash" = false ∧
      check_if_login_needed
        (ProbeStep.landed "https://sellercentral.amazon.co.uk/snowdash" true) = false)
    ∧ check_if_login_needed
        (ProbeStep.landed "https://sellercentral.amazon.co.uk/snowdash" false) = true :=
  ⟨⟨by with_unfolding_all decide,
    claim_C6.2.1 "https://sellercentral.amazon.co.uk/ap/signin" false
      (by with_unfolding_all decide)⟩,
   ⟨by with_unfolding_all decide,
    claim_C6.2.2.1 "https://sellercentral.amazon.co.uk/snowdash"
      (by with_unfolding_all decide)⟩,
   claim_C6.2.2.2 "https://sellercentral.amazon.co.uk/snowdash"
     (by with_unfolding_all decide)⟩

/-- C7: on every successful run the inventory-insight extractor returns a
sequence of length `min 5 (number of rows)`; in particular zero rendered
rows yield `some []` — the empty sequence, not `none`. -/
theorem claim_C7 :
    (∀ rows : List InfRow, ∃ items : List InfItem,
        scrape_inf_data (InfPageOutcome.ready rows) = some items
        ∧ items.length = min 5 rows.length)
    ∧ scrape_inf_data (InfPageOutcome.ready []) = some []
    ∧ scrape_inf_data InfPageOutcome.fatalError = none := by
  refine ⟨?_, rfl, rfl⟩
  intro rows
  by_cases h : rows.isEmpty = true
  · refine ⟨[], ?_, ?_⟩
    · simp [scrape_inf_data, h]
    · rw [List.isEmpty_iff.mp h]
      rfl
  · refine ⟨(rows.take 5).map extractInfRow, ?_, ?_⟩
    · simp only [scrape_inf_data, h, Bool.false_eq_true, if_false]
    · rw [List.length_map, List.length_take]

/-- C10: in the run controller, a successful metrics result combined with a
failed (`None`) inventory-insight result is exactly the same combined
record as one combined with a genuinely empty row list, the combined record
is always produced when metrics succeeded, and no record is produced when
metrics failed. -/
theorem claim_C10 :
    (∀ m : StoreData, combineStore (some m) none = combineStore (some m) (some []))
    ∧ (∀ m : StoreData, combineStore (some m) none = some ⟨m.overall, m.shoppers, []⟩)
    ∧ (∀ (m : StoreData) (inf_items : Option (List InfItem)),
        (combineStore (some m) inf_items).isSome = true)
    ∧ (∀ inf_items : Option (List InfItem), combineStore none inf_items = none) := by
  refine ⟨fun m => rfl, fun m => rfl, ?_, fun _ => rfl⟩
  intro m inf_items
  rfl

/-- The retry loop returns `none` after exhausting its budget when every
attempt fails, invoking the operation once per remaining attempt. -/
theorem retryAux_all_fail {α : Type} (op : ℕ → Option α) (hop : ∀ k, op k = none) :
    ∀ (n k : ℕ), retryAux op k n = (none, k + n) := by
  intro n
  induction n with
  | zero => intro k; rfl
  | succ n ih =>
      intro k
      rw [retryAux, hop k, ih (k + 1)]
      simp only [Prod.mk.injEq, true_and]
      omega

/-- The retry loop stops at the first successful attempt, having invoked
the operation once per step taken. -/
theorem retryAux_first_success {α : Type} (op : ℕ → Option α) (v : α) :
    ∀ (n m k : ℕ), (∀ j, j < m → op (k + j) = none) → op (k + m) = some v → m < n →
      retryAux op k n = (some v, k + m + 1) := by
  intro n
  induction n with
  | zero => intro m k _ _ hlt; omega
  | succ n ih =>
      intro m k hfail hsucc hlt
      cases m with
      | zero =>
          rw [retryAux]
          have h0 : op k = some v := by simpa using hsucc
          rw [h0]
      | succ m =>
          have h0 : op k = none := by simpa using hfail 0 (Nat.succ_pos m)
          rw [retryAux, h0]
          have := ih m (k + 1)
            (fun j hj => by
              have := hfail (j + 1) (by omega)
              simpa [Nat.add_assoc, Nat.add_comm 1 j] using this)
            (by
              have : k + 1 + m = k + (m + 1) := by omega
              rw [this]
              exact hsucc)
            (by omega)
          rw [this]
          simp only [Prod.mk.injEq, true_and]
          omega

/-- C4 (spec-modelled retry wrapper): an operation that fails on its first
`N-1` attempts and succeeds on attempt `N` (with `N ≤ max_attempts`) is
invoked exactly `N` times and its success value is returned; an operation
that always fails is invoked exactly `max_attempts` times and the wrapper
returns `none` without raising. -/
theorem claim_C4 :
    (∀ (α : Type) (op : ℕ → Option α) (max_attempts N : ℕ) (v : α),
        1 ≤ N → N ≤ max_attempts →
        (∀ k, k < N - 1 → op k = none) → op (N - 1) = some v →
        run_with_retries op max_attempts = (some v, N))
    ∧ (∀ (α : Type) (op : ℕ → Option α) (max_attempts : ℕ),
        (∀ k, op k = none) →
        run_with_retries op max_attempts = (none, max_attempts)) := by
  constructor
  · intro α op max_attempts N v h1 h2 hfail hsucc
    rw [run_with_retries]
    have := retryAux_first_success op v max_attempts (N - 1) 0
      (fun j hj => by simpa using hfail j hj)
      (by simpa using hsucc)
      (by omega)
    rw [this]
    simp only [Prod.mk.injEq, true_and]
    omega
  · intro α op max_attempts hop
    rw [run_with_retries, retryAux_all_fail op hop max_attempts 0]
    simp

/-- Witness for C4 with `max_attempts = SCRAPE_RETRY_ATTEMPTS = 3`: the
fails-twice-then-succeeds operation is invoked 3 times and yields its
success value; the always-failing operation is invoked 3 times and yields
`none`. -/
theorem claim_C4_witness :
    run_with_retries opFailTwice SCRAPE_RETRY_ATTEMPTS = (some 42, 3)
    ∧ run_with_retries opAlwaysFail SCRAPE_RETRY_ATTEMPTS = (none, 3) :=
  ⟨claim_C4.1 ℕ opFailTwice 3 3 42 (by omega) (by omega)
      (fun k hk => by simp only [opFailTwice]; rw [if_pos (by omega)])
      (by with_unfolding_all decide),
   claim_C4.2 ℕ opAlwaysFail 3 (fun k => rfl)⟩

end RMScraper
